import Mathlib

/-!
Verification of the LiveNote session-collaboration engine.

This development gives a shallow embedding of the relevant parts of the
repository and proves properties about them:

* `src/lib/note-service.ts` — text/Tiptap conversion, note creation, the
  join/leave upsert, the lock setter, the edit-permission request/response
  state machine and the expiry cleanup pass;
* `src/hooks/useNoteLock.ts` — the client-side lock acquisition logic;
* `src/hooks/useRealtimeNote.ts` — the realtime-subscription status handler
  with its polling fallback;
* the SQL migrations — column defaults used by inserts that do not set a
  column explicitly (`permission_status DEFAULT 'none'`).

Timestamps are modelled as natural numbers of milliseconds since the epoch
(JavaScript `Date.now()` values); the store is modelled per session, as a
list of participant rows plus the lock fields of the `notes` row.
-/

namespace LiveNote

/-- Character membership in the set JavaScript's `String.prototype.trim`
removes (ECMAScript WhiteSpace and LineTerminator code points). -/
def jsIsWhitespace (c : Char) : Bool :=
  [9, 10, 11, 12, 13, 32, 160, 5760,
   8192, 8193, 8194, 8195, 8196, 8197, 8198, 8199, 8200, 8201, 8202,
   8232, 8233, 8239, 8287, 12288, 65279].contains c.toNat

/-- Model of the leaf nodes that `tiptapJsonToText` reads: an object with a
`type` tag and an optional `text` field (`TiptapNode` in `types/note.ts`,
restricted to the one nesting level these two functions ever consume). -/
structure TiptapChild where
  kind : String
  text : Option (List Char)
deriving DecidableEq, Repr

/-- Model of a top-level node of a Tiptap document: a `type` tag and an
optional list of children. -/
structure TiptapNode where
  kind : String
  content : Option (List TiptapChild)
deriving DecidableEq, Repr

/-- Model of `TiptapContent` from `types/note.ts`: a `doc` wrapper holding a
list of top-level nodes. -/
structure TiptapContent where
  content : List TiptapNode
deriving DecidableEq, Repr

/-- Split a character list at every newline, mirroring the JavaScript
`text.split('\n')` call in `textToTiptapJson`. -/
def splitLines : List Char → List (List Char)
  | [] => [[]]
  | c :: rest =>
    if c = '\n' then [] :: splitLines rest
    else
      match splitLines rest with
      | [] => [[c]]
      | l :: ls => (c :: l) :: ls

/-- Join line fragments with newlines, mirroring the JavaScript
`lines.join('\n')` call in `tiptapJsonToText`. -/
def joinLines : List (List Char) → List Char
  | [] => []
  | [l] => l
  | l :: ls => l ++ '\n' :: joinLines ls

/-- Embedding of `textToTiptapJson` (note-service.ts lines 10-22).  The
guard `!text || text.trim() === ''` holds exactly when every character of
the input is JavaScript whitespace (vacuously for the empty string);
otherwise each line becomes a paragraph whose content is a single text node
when the line is nonempty and the empty list when it is empty. -/
def textToTiptapJson (text : List Char) : TiptapContent :=
  if text.all jsIsWhitespace then { content := [] }
  else
    { content := splitLines text |>.map fun line =>
        { kind := "paragraph",
          content := some (if line.isEmpty then [] else [{ kind := "text", text := some line }]) } }

/-- Embedding of `tiptapJsonToText` (note-service.ts lines 30-45).  A null
document or a document without a content field yields the empty string;
otherwise every paragraph node with a content field contributes the
concatenation of its children's text fields (missing text contributing the
empty string), any other node contributes the empty string, and the pieces
are joined with newlines. -/
def tiptapJsonToText (json : Option TiptapContent) : List Char :=
  match json with
  | none => []
  | some doc =>
    joinLines (doc.content.map fun node =>
      if node.kind = "paragraph" then
        match node.content with
        | some children => (children.map fun child => child.text.getD []).flatten
        | none => []
      else [])

lemma splitLines_ne_nil (l : List Char) : splitLines l ≠ [] := by
  cases l with
  | nil => simp [splitLines]
  | cons c rest =>
    simp only [splitLines]
    split
    · simp
    · cases h : splitLines rest <;> simp

lemma joinLines_splitLines (l : List Char) : joinLines (splitLines l) = l := by
  induction l with
  | nil => rfl
  | cons c rest ih =>
    simp only [splitLines]
    split
    · rename_i hc
      subst hc
      cases h : splitLines rest with
      | nil => exact absurd h (splitLines_ne_nil rest)
      | cons l ls =>
        rw [h] at ih
        simp only [joinLines]
        rw [ih]
        rfl
    · cases h : splitLines rest with
      | nil => exact absurd h (splitLines_ne_nil rest)
      | cons l ls =>
        rw [h] at ih
        cases ls with
        | nil => simpa [joinLines] using ih
        | cons l2 ls2 =>
          simp only [joinLines] at ih ⊢
          rw [List.cons_append, ih]

lemma tiptap_line_roundtrip (line : List Char) :
    ((if line.isEmpty then ([] : List TiptapChild)
      else [{ kind := "text", text := some line }]).map
        (fun child => child.text.getD [])).flatten = line := by
  cases line <;> simp

/-- Evaluating `tiptapJsonToText` on the output of `textToTiptapJson` in the
non-whitespace branch recovers the original lines. -/
lemma tiptapJsonToText_textToTiptapJson (text : List Char)
    (h : text.all jsIsWhitespace = false) :
    tiptapJsonToText (some (textToTiptapJson text)) = text := by
  unfold textToTiptapJson
  rw [h]
  simp only [Bool.false_eq_true, if_false, tiptapJsonToText, List.map_map]
  have hmap : (splitLines text).map
      ((fun node : TiptapNode =>
        if node.kind = "paragraph" then
          match node.content with
          | some children => (children.map fun child => child.text.getD []).flatten
          | none => []
        else []) ∘
       (fun line : List Char =>
        { kind := "paragraph",
          content := some (if line.isEmpty then [] else [{ kind := "text", text := some line }]) })) =
      (splitLines text).map id := by
    apply List.map_congr_left
    intro line _
    simp only [Function.comp_apply, id_eq, if_pos rfl]
    exact tiptap_line_roundtrip line
  rw [hmap, List.map_id]
  exact joinLines_splitLines text

/-- Participant role, the `UserRole` union of `types/note.ts`. -/
inductive UserRole where
  | host
  | guest
deriving DecidableEq, Repr

/-- Permission lifecycle state, the `PermissionStatus` union of
`types/note.ts`. -/
inductive PermissionStatus where
  | noReq
  | requested
  | granted
  | denied
deriving DecidableEq, Repr

/-- Row of the `note_users` table, scoped to one note (the `note_id` column
is implicit in the enclosing `NoteState`).  Timestamps are milliseconds. -/
structure NoteUser where
  user_id : String
  username : String
  role : UserRole
  can_edit : Bool
  permission_status : PermissionStatus
  permission_requested_at : Option Nat
  joined_at : Nat
deriving DecidableEq, Repr

/-- Lock fields of the `notes` row together with the note's `note_users`
rows: the slice of the store that the arbiter and lock operations touch. -/
structure NoteState where
  is_locked : Bool
  locked_by : Option String
  users : List NoteUser
deriving DecidableEq, Repr

/-- Distinct failure outcomes of the service functions, one constructor per
distinct `throw new Error(...)` site relevant to the claims. -/
inductive ServiceError where
  | invalidId
  | notFound
  | hostForbidden
  | alreadyGranted
  | cooldown (remainingSeconds : Nat)
  | respondForbidden
  | targetNotFound
  | invalidState
  | hostImmutable
deriving DecidableEq, Repr

/-- Lookup of a participant row by user id, the
`.eq('note_id', ...).eq('user_id', ...).single()` query pattern. -/
def findUser (users : List NoteUser) (uid : String) : Option NoteUser :=
  users.find? fun u => u.user_id == uid

/-- Row update keyed by user id, the `.update(...).eq('user_id', ...)`
pattern: every row with that user id is rewritten by `f`. -/
def updateUser (users : List NoteUser) (uid : String) (f : NoteUser → NoteUser) :
    List NoteUser :=
  users.map fun u => if u.user_id == uid then f u else u

/-- Embedding of the host-row insertion of `createNote` (note-service.ts
lines 96-113): the fresh note is unlocked and its only participant row sets
`role = host` and `can_edit = true` but not `permission_status`, which
therefore takes the schema default `'none'` (migration
`ALTER TABLE note_users ADD COLUMN permission_status ... DEFAULT 'none'`). -/
def createNote (now : Nat) (hostId : String) : NoteState :=
  { is_locked := false,
    locked_by := none,
    users := [{ user_id := hostId,
                username := "호스트",
                role := .host,
                can_edit := true,
                permission_status := .noReq,
                permission_requested_at := none,
                joined_at := now }] }

/-- Update payload of the rejoin branch of `joinNote`: only the display
name, role and join timestamp are rewritten. -/
def joinUpd (now : Nat) (username : String) (role : UserRole) (v : NoteUser) : NoteUser :=
  { v with username := username, role := role, joined_at := now }

/-- Row inserted by the first-join branch of `joinNote`: the edit flag and
permission status come from the role, the request timestamp is null. -/
def joinFresh (now : Nat) (userId username : String) (role : UserRole) : NoteUser :=
  { user_id := userId,
    username := username,
    role := role,
    can_edit := role == .host,
    permission_status := if role == .host then .granted else .noReq,
    permission_requested_at := none,
    joined_at := now }

/-- Embedding of `joinNote` (note-service.ts lines 345-408).  With an
existing row for the user id the update rewrites only `username`, `role`
and `joined_at`; otherwise a fresh row is inserted with
`can_edit = (role == host)` and `permission_status` granted for a host and
none for a guest. -/
def joinNote (st : NoteState) (now : Nat) (userId username : String)
    (role : UserRole) : Except ServiceError (NoteState × NoteUser) :=
  if userId = "" then .error .invalidId
  else
    match findUser st.users userId with
    | some existing =>
      .ok ({ st with users := updateUser st.users userId (joinUpd now username role) },
           joinUpd now username role existing)
    | none =>
      .ok ({ st with users := st.users ++ [joinFresh now userId username role] },
           joinFresh now userId username role)

/-- Remaining cooldown seconds reported by `requestEditPermission`:
`Math.ceil(30 - elapsedMs / 1000)`, which for `elapsedMs ≤ 30000` equals
this natural-number ceiling division. -/
def remainingSeconds (elapsedMs : Nat) : Nat :=
  (30000 - elapsedMs + 999) / 1000

/-- Update payload of a successful `requestEditPermission` call: status
`requested` and the request timestamp set to now. -/
def requestUpd (now : Nat) (v : NoteUser) : NoteUser :=
  { v with permission_status := .requested, permission_requested_at := some now }

/-- Embedding of `requestEditPermission` (note-service.ts lines 576-646):
missing participant, host caller and already-enabled edit flag fail first;
then a stored request timestamp less than 30 seconds old combined with a
`requested` or `denied` status fails with the remaining cooldown; otherwise
only `permission_status` and `permission_requested_at` are rewritten. -/
def requestEditPermission (st : NoteState) (now : Nat) (userId : String) :
    Except ServiceError (NoteState × NoteUser) :=
  if userId = "" then .error .invalidId
  else
    match findUser st.users userId with
    | none => .error .notFound
    | some userData =>
      if userData.role = .host then .error .hostForbidden
      else if userData.can_edit = true then .error .alreadyGranted
      else
        match userData.permission_requested_at with
        | some last =>
          let elapsedMs := now - last
          if elapsedMs < 30000 ∧ userData.permission_status = .requested then
            .error (.cooldown (remainingSeconds elapsedMs))
          else if elapsedMs < 30000 ∧ userData.permission_status = .denied then
            .error (.cooldown (remainingSeconds elapsedMs))
          else
            .ok ({ st with users := updateUser st.users userId (requestUpd now) },
                 requestUpd now userData)
        | none =>
          .ok ({ st with users := updateUser st.users userId (requestUpd now) },
               requestUpd now userData)

/-- Update payload of an approval in `respondToEditRequest`. -/
def approveUpd (v : NoteUser) : NoteUser :=
  { v with can_edit := true, permission_status := .granted }

/-- Update payload of a denial in `respondToEditRequest`: the edit flag is
not part of the payload. -/
def denyUpd (v : NoteUser) : NoteUser :=
  { v with permission_status := .denied }

/-- Embedding of `respondToEditRequest` (note-service.ts lines 660-730):
the caller must resolve, by lookup with `role = 'host'`, to a stored host
row; the target must exist and have status `requested`; approval rewrites
`can_edit` to true and status to `granted`, denial rewrites only the status
to `denied`. -/
def respondToEditRequest (st : NoteState) (targetUserId : String)
    (approved : Bool) (hostUserId : String) :
    Except ServiceError (NoteState × NoteUser) :=
  if targetUserId = "" ∨ hostUserId = "" then .error .invalidId
  else
    match st.users.find? (fun u => u.user_id == hostUserId && u.role == .host) with
    | none => .error .respondForbidden
    | some _ =>
      match findUser st.users targetUserId with
      | none => .error .targetNotFound
      | some targetData =>
        if targetData.permission_status ≠ .requested then .error .invalidState
        else
          let f : NoteUser → NoteUser := if approved then approveUpd else denyUpd
          .ok ({ st with users := updateUser st.users targetUserId f }, f targetData)

/-- Update payload of `updateUserEditPermission`: the `can_edit` column
only. -/
def canEditUpd (ce : Bool) (v : NoteUser) : NoteUser := { v with can_edit := ce }

/-- Embedding of `updateUserEditPermission` (note-service.ts lines
501-564): after the same host lookup for the requester, an existence check
for the target and a rejection of host targets, the update rewrites the
`can_edit` column only — `permission_status` is not part of the update
payload. -/
def updateUserEditPermission (st : NoteState) (targetUserId : String)
    (canEdit : Bool) (requesterId : String) :
    Except ServiceError (NoteState × NoteUser) :=
  if targetUserId = "" ∨ requesterId = "" then .error .invalidId
  else
    match st.users.find? (fun u => u.user_id == requesterId && u.role == .host) with
    | none => .error .respondForbidden
    | some _ =>
      match findUser st.users targetUserId with
      | none => .error .targetNotFound
      | some targetData =>
        if targetData.role = .host then .error .hostImmutable
        else
          .ok ({ st with users := updateUser st.users targetUserId (canEditUpd canEdit) },
               canEditUpd canEdit targetData)

/-- Filter of the cleanup update (note-service.ts lines 747-755): status in
`('requested', 'denied')` and `permission_requested_at` strictly older than
`now` minus 24 hours; rows with a null timestamp never match the `lt`
filter. -/
def isExpired (now : Nat) (u : NoteUser) : Bool :=
  (u.permission_status == .requested || u.permission_status == .denied) &&
  (match u.permission_requested_at with
   | some t => t < now - 86400000
   | none => false)

/-- Row rewrite of the cleanup update: matching rows are reset to status
`none` with a cleared timestamp, all other rows are untouched. -/
def expireUpd (now : Nat) (u : NoteUser) : NoteUser :=
  if isExpired now u then
    { u with permission_status := .noReq, permission_requested_at := none }
  else u

/-- Embedding of `cleanupExpiredRequests` (note-service.ts lines 737-760).
The store update may fail (`dbFail`); a failure is logged
(`console.error`) and the function still returns normally, so the result
carries the possibly-unchanged state together with the logged flag instead
of an `Except`. -/
def cleanupExpiredRequests (st : NoteState) (now : Nat) (dbFail : Bool) :
    NoteState × Bool :=
  if dbFail then (st, true)
  else ({ st with users := st.users.map (expireUpd now) }, false)

/-- Embedding of `setNoteLock` (note-service.ts lines 308-334): an
unconditional overwrite of the `is_locked` and `locked_by` columns. -/
def setNoteLock (st : NoteState) (isLocked : Bool) (lockedBy : Option String) :
    NoteState :=
  { st with is_locked := isLocked, locked_by := lockedBy }

/-- Embedding of `requestLock` from `useNoteLock` (hooks file lines
138-161): a guest caller fails and changes nothing; a host holding the lock
already gets an idempotent success; any other host call overwrites the lock
fields via `setNoteLock(noteId, true, userId)` and succeeds.  The returned
boolean is the promise value of the hook. -/
def requestLock (st : NoteState) (role : UserRole) (userId : String) :
    Bool × NoteState :=
  if role ≠ .host then (false, st)
  else if st.is_locked = true ∧ st.locked_by = some userId then (true, st)
  else (true, setNoteLock st true (some userId))

/-- Client-side synchronisation state of `useRealtimeNote`: the reconnect
attempt counter, whether the polling interval timer is installed, and the
connected flag. -/
structure SyncState where
  reconnectAttempts : Nat
  pollingActive : Bool
  isConnected : Bool
deriving DecidableEq, Repr

/-- Subscription status values delivered to the `subscribe` callback. -/
inductive ChannelStatus where
  | subscribed
  | channelError
  | timedOut
  | closed
deriving DecidableEq, Repr

/-- Polling interval of the fallback, `POLLING_INTERVAL = 3000`
milliseconds (useRealtimeNote.ts line 42). -/
def POLLING_INTERVAL : Nat := 3000

/-- Reconnect attempt bound, `MAX_RECONNECT_ATTEMPTS = 3`
(useRealtimeNote.ts line 44). -/
def MAX_RECONNECT_ATTEMPTS : Nat := 3

/-- Embedding of the subscribe status handler of `useRealtimeNote`
(useRealtimeNote.ts lines 238-260): a successful subscription resets the
attempt counter and stops polling; an error or timeout increments the
counter while it is below the bound and otherwise starts polling; a close
only clears the connected flag. -/
def onStatus (s : SyncState) (status : ChannelStatus) : SyncState :=
  match status with
  | .subscribed =>
    { s with isConnected := true, reconnectAttempts := 0, pollingActive := false }
  | .channelError | .timedOut =>
    if s.reconnectAttempts < MAX_RECONNECT_ATTEMPTS then
      { s with isConnected := false, reconnectAttempts := s.reconnectAttempts + 1 }
    else
      { s with isConnected := false, pollingActive := true }
  | .closed => { s with isConnected := false }

/-- Content application step of `fetchNoteContent` (useRealtimeNote.ts
lines 97-122): a poll tick replaces the local content with the fetched
authoritative content unless a local change is in flight, in which case the
local value is kept. -/
def applyFetch (localContent serverContent : Option TiptapContent)
    (isLocalChange : Bool) : Option TiptapContent :=
  if isLocalChange then localContent else serverContent

lemma length_updateUser (users : List NoteUser) (uid : String) (f : NoteUser → NoteUser) :
    (updateUser users uid f).length = users.length :=
  List.length_map users _

lemma self_mem_updateUser_of_ne (users : List NoteUser) (uid : String)
    (f : NoteUser → NoteUser) (u : NoteUser) (hu : u ∈ users)
    (hne : u.user_id ≠ uid) : u ∈ updateUser users uid f := by
  have heq : (fun v : NoteUser => if v.user_id == uid then f v else v) u = u := by
    simp [hne]
  exact heq ▸ List.mem_map_of_mem _ hu

lemma findUser_eq_of_mem_nodup (users : List NoteUser)
    (hnodup : (users.map NoteUser.user_id).Nodup) (u : NoteUser) (hu : u ∈ users)
    (w : NoteUser) (hw : findUser users u.user_id = some w) : w = u := by
  have hwmem : w ∈ users := List.mem_of_find?_eq_some hw
  have hwuid : w.user_id = u.user_id := by
    have := List.find?_some hw
    simpa using this
  exact List.inj_on_of_nodup_map hnodup hwmem hu hwuid

/-- C10: for every string with at least one non-whitespace character the
composite `tiptapJsonToText (textToTiptapJson s)` returns the string
unchanged, newlines and interior empty lines included; for every empty or
all-whitespace string, `textToTiptapJson` is the empty document
`{type: doc, content: []}` and the round trip yields the empty string. -/
theorem C10_tiptap_roundtrip (text : List Char) :
    (text.all jsIsWhitespace = false →
       tiptapJsonToText (some (textToTiptapJson text)) = text) ∧
    (text.all jsIsWhitespace = true →
       textToTiptapJson text = { content := [] } ∧
       tiptapJsonToText (some (textToTiptapJson text)) = []) := by
  constructor
  · exact tiptapJsonToText_textToTiptapJson text
  · intro h
    constructor
    · simp [textToTiptapJson, h]
    · simp [textToTiptapJson, tiptapJsonToText, h, joinLines]

/-- Witness for C10 at the concrete strings "a\n\nb" (one interior empty
line) and " \n" (whitespace only). -/
theorem C10_tiptap_roundtrip_witness :
    tiptapJsonToText (some (textToTiptapJson ['a', '\n', '\n', 'b'])) =
      ['a', '\n', '\n', 'b'] ∧
    textToTiptapJson [' ', '\n'] = { content := [] } ∧
    tiptapJsonToText (some (textToTiptapJson [' ', '\n'])) = [] :=
  ⟨(C10_tiptap_roundtrip ['a', '\n', '\n', 'b']).1 (by decide),
   ((C10_tiptap_roundtrip [' ', '\n']).2 (by decide)).1,
   ((C10_tiptap_roundtrip [' ', '\n']).2 (by decide)).2⟩

/-- C2: `requestEditPermission` fails with the distinct error for an absent
participant, a host caller, an already-enabled edit flag, and a
`requested`/`denied` status less than 30 seconds after the stored request
timestamp — in that precedence order — and in every other case rewrites
only the permission status (to `requested`) and the request timestamp (to
now), returning the updated record with its edit flag unchanged. -/
theorem C2_requestEditPermission_cases (st : NoteState) (now : Nat) (uid : String)
    (hne : uid ≠ "") :
    (findUser st.users uid = none →
       requestEditPermission st now uid = .error .notFound) ∧
    ∀ u, findUser st.users uid = some u →
      (u.role = .host → requestEditPermission st now uid = .error .hostForbidden) ∧
      (u.role ≠ .host → u.can_edit = true →
         requestEditPermission st now uid = .error .alreadyGranted) ∧
      (∀ last, u.role ≠ .host → u.can_edit = false →
         u.permission_requested_at = some last → now - last < 30000 →
         u.permission_status = .requested ∨ u.permission_status = .denied →
         requestEditPermission st now uid =
           .error (.cooldown (remainingSeconds (now - last)))) ∧
      (u.role ≠ .host → u.can_edit = false →
         (∀ last, u.permission_requested_at = some last →
            30000 ≤ now - last ∨
            (u.permission_status ≠ .requested ∧ u.permission_status ≠ .denied)) →
         requestEditPermission st now uid =
           .ok ({ st with users := updateUser st.users uid (requestUpd now) },
                { u with permission_status := .requested,
                         permission_requested_at := some now })) := by
  refine ⟨fun h => by simp [requestEditPermission, hne, h], ?_⟩
  intro u hu
  refine ⟨?_, ?_, ?_, ?_⟩
  · intro hrole
    simp [requestEditPermission, hne, hu, hrole]
  · intro hrole hedit
    simp [requestEditPermission, hne, hu, hrole, hedit]
  · intro last hrole hedit hts hlt hstat
    rcases hstat with hs | hs
    · simp [requestEditPermission, hne, hu, hrole, hedit, hts, hlt, hs]
    · simp [requestEditPermission, hne, hu, hrole, hedit, hts, hlt, hs]
  · intro hrole hedit hcool
    cases hts : u.permission_requested_at with
    | none => simp [requestEditPermission, requestUpd, hne, hu, hrole, hedit, hts]
    | some last =>
      rcases hcool last hts with h30 | ⟨hs1, hs2⟩
      · simp [requestEditPermission, requestUpd, hne, hu, hrole, hedit, hts,
          Nat.not_lt.mpr h30]
      · simp [requestEditPermission, requestUpd, hne, hu, hrole, hedit, hts, hs1, hs2]

/-- Guest row used to instantiate the C2 theorem. -/
def c2Guest : NoteUser :=
  { user_id := "g", username := "Guest", role := .guest, can_edit := false,
    permission_status := .noReq, permission_requested_at := none, joined_at := 0 }

/-- Session used to instantiate the C2 theorem. -/
def c2State : NoteState := { is_locked := false, locked_by := none, users := [c2Guest] }

/-- Witness for C2: the success case at a concrete guest with no prior
request. -/
theorem C2_requestEditPermission_cases_witness :
    requestEditPermission c2State 100 "g" =
      .ok ({ c2State with users := updateUser c2State.users "g" (requestUpd 100) },
           { c2Guest with permission_status := .requested,
                          permission_requested_at := some 100 }) :=
  (((C2_requestEditPermission_cases c2State 100 "g" (by decide)).2 c2Guest
      (by decide)).2.2.2) (by decide) (by decide)
    (fun last h => by cases h)

/-- C3: `respondToEditRequest` fails unless the caller resolves, by a
lookup filtered on `role = host`, to a stored host row; it fails with the
invalid-state error unless the target's status is `requested`; approval
rewrites the target's edit flag to true and its status to `granted`, denial
rewrites only the status to `denied`, leaving the edit flag unchanged. -/
theorem C3_respondToEditRequest_cases (st : NoteState) (tuid huid : String)
    (approved : Bool) (h1 : tuid ≠ "") (h2 : huid ≠ "") :
    (st.users.find? (fun u => u.user_id == huid && u.role == .host) = none →
       respondToEditRequest st tuid approved huid = .error .respondForbidden) ∧
    ∀ hostRec, st.users.find? (fun u => u.user_id == huid && u.role == .host) = some hostRec →
      (findUser st.users tuid = none →
         respondToEditRequest st tuid approved huid = .error .targetNotFound) ∧
      ∀ t, findUser st.users tuid = some t →
        (t.permission_status ≠ .requested →
           respondToEditRequest st tuid approved huid = .error .invalidState) ∧
        (t.permission_status = .requested → approved = true →
           respondToEditRequest st tuid approved huid =
             .ok ({ st with users := updateUser st.users tuid approveUpd },
                  { t with can_edit := true, permission_status := .granted })) ∧
        (t.permission_status = .requested → approved = false →
           respondToEditRequest st tuid approved huid =
             .ok ({ st with users := updateUser st.users tuid denyUpd },
                  { t with permission_status := .denied })) := by
  have hor : ¬ (tuid = "" ∨ huid = "") := by
    intro h
    rcases h with h | h
    · exact h1 h
    · exact h2 h
  refine ⟨fun h => by simp [respondToEditRequest, hor, h], ?_⟩
  intro hostRec hhost
  refine ⟨fun h => by simp [respondToEditRequest, hor, hhost, h], ?_⟩
  intro t ht
  refine ⟨?_, ?_, ?_⟩
  · intro hstat
    simp [respondToEditRequest, hor, hhost, ht, hstat]
  · intro hstat happ
    subst happ
    simp [respondToEditRequest, approveUpd, hor, hhost, ht, hstat]
  · intro hstat happ
    subst happ
    simp [respondToEditRequest, denyUpd, hor, hhost, ht, hstat]

/-- Host row used to instantiate the C3 theorem. -/
def c3Host : NoteUser :=
  { user_id := "h", username := "Host", role := .host, can_edit := true,
    permission_status := .granted, permission_requested_at := none, joined_at := 0 }

/-- Requesting guest row used to instantiate the C3 theorem. -/
def c3Guest : NoteUser :=
  { user_id := "g", username := "Guest", role := .guest, can_edit := false,
    permission_status := .requested, permission_requested_at := some 0, joined_at := 0 }

/-- Session used to instantiate the C3 theorem. -/
def c3State : NoteState :=
  { is_locked := false, locked_by := none, users := [c3Host, c3Guest] }

/-- Witness for C3: denial of a concrete requesting guest keeps the edit
flag false and sets the status to denied. -/
theorem C3_respondToEditRequest_cases_witness :
    respondToEditRequest c3State "g" false "h" =
      .ok ({ c3State with users := updateUser c3State.users "g" denyUpd },
           { c3Guest with permission_status := .denied }) :=
  ((((C3_respondToEditRequest_cases c3State "g" "h" false (by decide) (by decide)).2
      c3Host (by decide)).2 c3Guest (by decide)).2.2) (by decide) rfl

lemma updateUserEditPermission_ok_inv {st : NoteState} {tuid rid : String} {ce : Bool}
    {st2 : NoteState} {r : NoteUser}
    (h : updateUserEditPermission st tuid ce rid = .ok (st2, r)) :
    (∃ hr, st.users.find? (fun u => u.user_id == rid && u.role == .host) = some hr) ∧
    ∃ t, findUser st.users tuid = some t ∧ t.role ≠ .host ∧
      r = canEditUpd ce t ∧
      st2 = { st with users := updateUser st.users tuid (canEditUpd ce) } := by
  unfold updateUserEditPermission at h
  split at h
  · exact Except.noConfusion h
  · split at h
    · exact Except.noConfusion h
    · rename_i hr hhost
      split at h
      · exact Except.noConfusion h
      · rename_i t ht
        split at h
        · exact Except.noConfusion h
        · rename_i hrole
          simp only [Except.ok.injEq, Prod.mk.injEq] at h
          exact ⟨⟨hr, hhost⟩, t, ht, hrole, h.2.symm, h.1.symm⟩

lemma requestEditPermission_ok_inv {st : NoteState} {now : Nat} {uid : String}
    {st2 : NoteState} {r : NoteUser}
    (h : requestEditPermission st now uid = .ok (st2, r)) :
    ∃ w, findUser st.users uid = some w ∧ w.role ≠ .host ∧
      st2 = { st with users := updateUser st.users uid (requestUpd now) } := by
  unfold requestEditPermission at h
  split at h
  · exact Except.noConfusion h
  · split at h
    · exact Except.noConfusion h
    · rename_i w hw
      split at h
      · exact Except.noConfusion h
      · rename_i hrole
        split at h
        · exact Except.noConfusion h
        · split at h
          · dsimp only at h
            split at h
            · exact Except.noConfusion h
            · split at h
              · exact Except.noConfusion h
              · simp only [Except.ok.injEq, Prod.mk.injEq] at h
                exact ⟨w, hw, hrole, h.1.symm⟩
          · simp only [Except.ok.injEq, Prod.mk.injEq] at h
            exact ⟨w, hw, hrole, h.1.symm⟩

lemma respondToEditRequest_ok_inv {st : NoteState} {tuid huid : String}
    {approved : Bool} {st2 : NoteState} {r : NoteUser}
    (h : respondToEditRequest st tuid approved huid = .ok (st2, r)) :
    ∃ w, findUser st.users tuid = some w ∧ w.permission_status = .requested ∧
      st2.users = updateUser st.users tuid (if approved then approveUpd else denyUpd) := by
  unfold respondToEditRequest at h
  split at h
  · exact Except.noConfusion h
  · split at h
    · exact Except.noConfusion h
    · split at h
      · exact Except.noConfusion h
      · rename_i w hw
        split at h
        · exact Except.noConfusion h
        · rename_i hstat
          simp only [Except.ok.injEq, Prod.mk.injEq] at h
          refine ⟨w, hw, by simpa using hstat, ?_⟩
          rw [← h.1]

lemma joinNote_ok_users {st : NoteState} {now : Nat} {uid uname : String}
    {role : UserRole} {st2 : NoteState} {r : NoteUser}
    (h : joinNote st now uid uname role = .ok (st2, r)) :
    st2.users = updateUser st.users uid (joinUpd now uname role) ∨
    ∃ fresh, st2.users = st.users ++ [fresh] := by
  unfold joinNote at h
  split at h
  · exact Except.noConfusion h
  · split at h
    · simp only [Except.ok.injEq, Prod.mk.injEq] at h
      exact Or.inl (by rw [← h.1])
    · simp only [Except.ok.injEq, Prod.mk.injEq] at h
      exact Or.inr ⟨_, by rw [← h.1]⟩

/-- Host row used to instantiate the C4 theorems. -/
def c4Host : NoteUser :=
  { user_id := "h", username := "Host", role := .host, can_edit := true,
    permission_status := .granted, permission_requested_at := none, joined_at := 0 }

/-- Guest row with status `none` used to instantiate the C4 theorems. -/
def c4Guest : NoteUser :=
  { user_id := "g", username := "Guest", role := .guest, can_edit := false,
    permission_status := .noReq, permission_requested_at := none, joined_at := 0 }

/-- Session used to instantiate the C4 theorems. -/
def c4State : NoteState :=
  { is_locked := false, locked_by := none, users := [c4Host, c4Guest] }

/-- Counterexample to C4: enabling a concrete guest's edit flag through
`updateUserEditPermission` succeeds but leaves the stored permission status
at `none` instead of setting it to `granted` — the update payload contains
only the `can_edit` column. -/
theorem C4_counterexample :
    updateUserEditPermission c4State "g" true "h" =
      .ok ({ c4State with users := [c4Host, { c4Guest with can_edit := true }] },
           { c4Guest with can_edit := true }) ∧
    ({ c4Guest with can_edit := true }).permission_status ≠ .granted :=
  ⟨rfl, by decide⟩

/-- C4 amended: `updateUserEditPermission` verifies that the requester
resolves to a stored host row and that the target exists and is not the
host, then sets the target's edit flag to the given value and leaves the
target's permission status and request timestamp unchanged (it does not
write `granted` or `none` into the status). -/
theorem C4_amended_updateUserEditPermission (st : NoteState) (tuid rid : String)
    (ce : Bool) (st2 : NoteState) (r : NoteUser)
    (h : updateUserEditPermission st tuid ce rid = .ok (st2, r)) :
    (∃ hr ∈ st.users, hr.user_id = rid ∧ hr.role = .host) ∧
    ∃ t, findUser st.users tuid = some t ∧ t.role ≠ .host ∧
      r.can_edit = ce ∧ r.permission_status = t.permission_status ∧
      r.permission_requested_at = t.permission_requested_at ∧
      st2 = { st with users := updateUser st.users tuid (canEditUpd ce) } := by
  obtain ⟨⟨hr, hhost⟩, t, ht, hrole, hreq, hst2⟩ := updateUserEditPermission_ok_inv h
  refine ⟨⟨hr, List.mem_of_find?_eq_some hhost, ?_, ?_⟩, t, ht, hrole, ?_, ?_, ?_, hst2⟩
  · have := List.find?_some hhost
    simp only [Bool.and_eq_true, beq_iff_eq] at this
    exact this.1
  · have := List.find?_some hhost
    simp only [Bool.and_eq_true, beq_iff_eq] at this
    exact this.2
  · rw [hreq]; rfl
  · rw [hreq]; rfl
  · rw [hreq]; rfl

/-- Witness for C4 amended: disabling a concrete guest's edit flag. -/
theorem C4_amended_updateUserEditPermission_witness :
    (∃ hr ∈ c4State.users, hr.user_id = "h" ∧ hr.role = .host) ∧
    ∃ t, findUser c4State.users "g" = some t ∧ t.role ≠ .host ∧
      ({ c4Guest with can_edit := true }).can_edit = true ∧
      ({ c4Guest with can_edit := true }).permission_status = t.permission_status ∧
      ({ c4Guest with can_edit := true }).permission_requested_at =
        t.permission_requested_at ∧
      ({ c4State with users := [c4Host, { c4Guest with can_edit := true }] } :
          NoteState) =
        { c4State with users := updateUser c4State.users "g" (canEditUpd true) } :=
  C4_amended_updateUserEditPermission c4State "g" "h" true
    { c4State with users := [c4Host, { c4Guest with can_edit := true }] }
    { c4Guest with can_edit := true } rfl

/-- Session whose lock is held by another participant, used for C5. -/
def c5State : NoteState := { is_locked := true, locked_by := some "other", users := [] }

/-- Counterexample to C5: with the lock held by a different participant,
the host's acquisition does not fail with a locked error — it succeeds and
silently overwrites the holder, because `requestLock` only short-circuits
when the caller already holds the lock and otherwise calls the
unconditional `setNoteLock`. -/
theorem C5_counterexample :
    c5State.is_locked = true ∧
    c5State.locked_by = some "other" ∧
    ("other" : String) ≠ "me" ∧
    requestLock c5State .host "me" =
      (true, { c5State with locked_by := some "me" }) := by
  refine ⟨rfl, rfl, by decide, rfl⟩

/-- C5 amended: lock acquisition by a guest fails and changes nothing;
acquisition by the host always succeeds, with a no-op when the host already
holds the lock and an unconditional overwrite of any other holder
otherwise — no locked error exists on this path. -/
theorem C5_amended_requestLock (st : NoteState) (uid : String) :
    requestLock st .guest uid = (false, st) ∧
    (requestLock st .host uid).1 = true ∧
    (requestLock st .host uid).2.is_locked = true ∧
    (requestLock st .host uid).2.locked_by = some uid ∧
    (requestLock st .host uid).2.users = st.users ∧
    (st.is_locked = true → st.locked_by = some uid →
       requestLock st .host uid = (true, st)) := by
  have hguest : requestLock st .guest uid = (false, st) := by
    simp [requestLock]
  by_cases hc : st.is_locked = true ∧ st.locked_by = some uid
  · refine ⟨hguest, ?_, ?_, ?_, ?_, fun _ _ => ?_⟩ <;>
      simp [requestLock, hc, hc.1, hc.2]
  · have hres : requestLock st .host uid = (true, setNoteLock st true (some uid)) := by
      simp [requestLock, hc]
    refine ⟨hguest, ?_, ?_, ?_, ?_, fun h1 h2 => absurd ⟨h1, h2⟩ hc⟩ <;>
      simp [hres, setNoteLock]

/-- Witness for C5 amended: re-acquisition by the concrete current holder
is a no-op success, and a guest call fails without a state change. -/
theorem C5_amended_requestLock_witness :
    requestLock { is_locked := true, locked_by := some "w", users := [] } .host "w" =
      (true, { is_locked := true, locked_by := some "w", users := [] }) ∧
    requestLock { is_locked := true, locked_by := some "w", users := [] } .guest "w" =
      (false, { is_locked := true, locked_by := some "w", users := [] }) :=
  ⟨(C5_amended_requestLock { is_locked := true, locked_by := some "w", users := [] }
      "w").2.2.2.2.2 rfl rfl,
   (C5_amended_requestLock { is_locked := true, locked_by := some "w", users := [] }
      "w").1⟩

/-- Bounds on the reported cooldown remainder: for an elapsed time strictly
between 0 and 30000 milliseconds the ceiling is positive, at most 30, and
strictly below 30 exactly when at least one full second has elapsed. -/
lemma remainingSeconds_bounds (d : Nat) (h1 : 0 < d) (h2 : d < 30000) :
    0 < remainingSeconds d ∧ remainingSeconds d ≤ 30 ∧
      (remainingSeconds d < 30 ↔ 1000 ≤ d) := by
  unfold remainingSeconds
  refine ⟨?_, ?_, ?_⟩
  · exact Nat.div_pos (by omega) (by norm_num)
  · have hle : 30000 - d + 999 ≤ 30998 := by omega
    calc (30000 - d + 999) / 1000 ≤ 30998 / 1000 := Nat.div_le_div_right hle
    _ = 30 := by norm_num
  · rw [Nat.div_lt_iff_lt_mul (by norm_num : (0:Nat) < 1000)]
    omega

/-- Guest row with a request stored at time 0, used for C6. -/
def c6Guest : NoteUser :=
  { user_id := "g", username := "Guest", role := .guest, can_edit := false,
    permission_status := .requested, permission_requested_at := some 0, joined_at := 0 }

/-- Session used to instantiate the C6 theorems. -/
def c6State : NoteState := { is_locked := false, locked_by := none, users := [c6Guest] }

/-- Counterexample to C6: a second request 500 milliseconds after the first
(an elapsed time strictly between 0 and 30 seconds) reports a remaining
cooldown of exactly 30 seconds, because `Math.ceil(30 - 0.5) = 30` — not a
value strictly less than 30 as the claim requires. -/
theorem C6_counterexample :
    requestEditPermission c6State 500 "g" = .error (.cooldown 30) ∧
    ¬ (30 : Nat) < 30 :=
  ⟨rfl, by decide⟩

/-- C6 amended: a second request at an elapsed time strictly between 0 and
30 seconds fails with a cooldown remainder equal to the ceiling of 30 minus
the elapsed seconds; this remainder is strictly positive and at most 30,
and it is strictly less than 30 exactly when at least one full second has
elapsed (for sub-second elapsed times the ceiling is exactly 30). -/
theorem C6_amended_cooldown (st : NoteState) (now : Nat) (uid : String) (u : NoteUser)
    (last : Nat) (hne : uid ≠ "") (hfind : findUser st.users uid = some u)
    (hrole : u.role ≠ .host) (hedit : u.can_edit = false)
    (hts : u.permission_requested_at = some last)
    (hstat : u.permission_status = .requested ∨ u.permission_status = .denied)
    (h0 : last < now) (h30 : now - last < 30000) :
    requestEditPermission st now uid =
      .error (.cooldown (remainingSeconds (now - last))) ∧
    0 < remainingSeconds (now - last) ∧
    remainingSeconds (now - last) ≤ 30 ∧
    (remainingSeconds (now - last) < 30 ↔ 1000 ≤ now - last) := by
  have hb := remainingSeconds_bounds (now - last) (by omega) h30
  refine ⟨?_, hb.1, hb.2.1, hb.2.2⟩
  rcases hstat with hs | hs
  · simp [requestEditPermission, hne, hfind, hrole, hedit, hts, h30, hs]
  · simp [requestEditPermission, hne, hfind, hrole, hedit, hts, h30, hs]

/-- Witness for C6 amended at 10 elapsed seconds: the remainder is 20. -/
theorem C6_amended_cooldown_witness :
    requestEditPermission c6State 10000 "g" =
      .error (.cooldown (remainingSeconds 10000)) ∧
    0 < remainingSeconds 10000 ∧
    remainingSeconds 10000 ≤ 30 ∧
    (remainingSeconds 10000 < 30 ↔ 1000 ≤ 10000) :=
  C6_amended_cooldown c6State 10000 "g" c6Guest 0 (by decide) (by decide)
    (by decide) (by decide) (by decide) (by decide) (by decide) (by decide)

lemma expireUpd_reset (now : Nat) (u : NoteUser)
    (hstat : u.permission_status = .requested ∨ u.permission_status = .denied)
    (t : Nat) (hts : u.permission_requested_at = some t) (hlt : t < now - 86400000) :
    expireUpd now u =
      { u with permission_status := .noReq, permission_requested_at := none } := by
  rcases hstat with hs | hs <;> simp [expireUpd, isExpired, hs, hts, hlt]

lemma expireUpd_id_of_status (now : Nat) (u : NoteUser)
    (hstat : u.permission_status = .granted ∨ u.permission_status = .noReq) :
    expireUpd now u = u := by
  rcases hstat with hs | hs <;> simp [expireUpd, isExpired, hs]

lemma expireUpd_id_of_fresh (now : Nat) (u : NoteUser) (t : Nat)
    (hts : u.permission_requested_at = some t) (hge : now - 86400000 ≤ t) :
    expireUpd now u = u := by
  simp [expireUpd, isExpired, hts, Nat.not_lt.mpr hge]

lemma expireUpd_id_of_none (now : Nat) (u : NoteUser)
    (hts : u.permission_requested_at = none) : expireUpd now u = u := by
  simp [expireUpd, isExpired, hts]

/-- C7: the cleanup pass resets every row whose status is `requested` or
`denied` and whose request timestamp is strictly older than 24 hours to
status `none` with a cleared timestamp; rows with status `granted` or
`none`, rows whose timestamp is within 24 hours, and rows with no stored
timestamp are untouched; and a store failure is logged and swallowed — the
function returns the unchanged state instead of propagating an error. -/
theorem C7_cleanupExpiredRequests (st : NoteState) (now : Nat) :
    cleanupExpiredRequests st now true = (st, true) ∧
    (cleanupExpiredRequests st now false).2 = false ∧
    (cleanupExpiredRequests st now false).1.users.length = st.users.length ∧
    ∀ i, ∀ h : i < st.users.length,
      ∃ h2 : i < (cleanupExpiredRequests st now false).1.users.length,
        (((st.users.get ⟨i, h⟩).permission_status = .requested ∨
            (st.users.get ⟨i, h⟩).permission_status = .denied) →
           ∀ t, (st.users.get ⟨i, h⟩).permission_requested_at = some t →
             t < now - 86400000 →
             (cleanupExpiredRequests st now false).1.users.get ⟨i, h2⟩ =
               { st.users.get ⟨i, h⟩ with permission_status := .noReq,
                                          permission_requested_at := none }) ∧
        (((st.users.get ⟨i, h⟩).permission_status = .granted ∨
            (st.users.get ⟨i, h⟩).permission_status = .noReq) →
           (cleanupExpiredRequests st now false).1.users.get ⟨i, h2⟩ =
             st.users.get ⟨i, h⟩) ∧
        (∀ t, (st.users.get ⟨i, h⟩).permission_requested_at = some t →
           now - 86400000 ≤ t →
           (cleanupExpiredRequests st now false).1.users.get ⟨i, h2⟩ =
             st.users.get ⟨i, h⟩) ∧
        ((st.users.get ⟨i, h⟩).permission_requested_at = none →
           (cleanupExpiredRequests st now false).1.users.get ⟨i, h2⟩ =
             st.users.get ⟨i, h⟩) := by
  refine ⟨rfl, rfl, List.length_map st.users (expireUpd now), ?_⟩
  intro i h
  have h2 : i < (cleanupExpiredRequests st now false).1.users.length := by
    simpa [cleanupExpiredRequests] using h
  have hget : (cleanupExpiredRequests st now false).1.users.get ⟨i, h2⟩ =
      expireUpd now (st.users.get ⟨i, h⟩) := by
    simp [cleanupExpiredRequests]
  refine ⟨h2, ?_, ?_, ?_, ?_⟩
  · intro hstat t hts hlt
    rw [hget]
    exact expireUpd_reset now _ hstat t hts hlt
  · intro hstat
    rw [hget]
    exact expireUpd_id_of_status now _ hstat
  · intro t hts hge
    rw [hget]
    exact expireUpd_id_of_fresh now _ t hts hge
  · intro hts
    rw [hget]
    exact expireUpd_id_of_none now _ hts

/-- Expired denied guest used to instantiate the C7 theorem. -/
def c7Guest : NoteUser :=
  { user_id := "g", username := "Guest", role := .guest, can_edit := false,
    permission_status := .denied, permission_requested_at := some 0, joined_at := 0 }

/-- Session used to instantiate the C7 theorem. -/
def c7State : NoteState := { is_locked := false, locked_by := none, users := [c7Guest] }

/-- Witness for C7: a concrete denied guest whose request is more than 24
hours old is reset by the cleanup pass. -/
theorem C7_cleanupExpiredRequests_witness :
    ∃ h2 : 0 < (cleanupExpiredRequests c7State 90000000 false).1.users.length,
      (cleanupExpiredRequests c7State 90000000 false).1.users.get ⟨0, h2⟩ =
        { c7Guest with permission_status := .noReq,
                       permission_requested_at := none } := by
  obtain ⟨h2, hreset, _, _, _⟩ :=
    (C7_cleanupExpiredRequests c7State 90000000).2.2.2 0 (by decide)
  exact ⟨h2, hreset (Or.inr rfl) 0 rfl (by decide)⟩

/-- C8: `joinNote` is an upsert keyed by the participant id within the
session.  With no existing row it inserts one whose defaults are an edit
flag of false and status `none` for a guest and an edit flag of true and
status `granted` for a host; with an existing row it rewrites only the
display name, role and join time of that row — the list keeps its length
(no duplicate) and the row's edit flag, permission status and request
timestamp are unchanged. -/
theorem C8_joinNote_upsert (st : NoteState) (now : Nat) (uid uname : String)
    (role : UserRole) (hne : uid ≠ "") :
    (findUser st.users uid = none →
       joinNote st now uid uname role =
         .ok ({ st with users := st.users ++ [joinFresh now uid uname role] },
              joinFresh now uid uname role) ∧
       (joinFresh now uid uname role).can_edit = (role == .host) ∧
       (joinFresh now uid uname role).permission_status =
         (if role = .host then .granted else .noReq) ∧
       (joinFresh now uid uname role).permission_requested_at = none) ∧
    ∀ u, findUser st.users uid = some u →
      joinNote st now uid uname role =
        .ok ({ st with users := updateUser st.users uid (joinUpd now uname role) },
             joinUpd now uname role u) ∧
      (updateUser st.users uid (joinUpd now uname role)).length = st.users.length ∧
      (joinUpd now uname role u).can_edit = u.can_edit ∧
      (joinUpd now uname role u).permission_status = u.permission_status ∧
      (joinUpd now uname role u).permission_requested_at = u.permission_requested_at ∧
      (joinUpd now uname role u).user_id = u.user_id ∧
      (joinUpd now uname role u).username = uname ∧
      (joinUpd now uname role u).role = role ∧
      (joinUpd now uname role u).joined_at = now := by
  constructor
  · intro h
    refine ⟨by simp [joinNote, hne, h], rfl, ?_, rfl⟩
    cases role <;> simp [joinFresh]
  · intro u hu
    exact ⟨by simp [joinNote, hne, hu], length_updateUser st.users uid _,
           rfl, rfl, rfl, rfl, rfl, rfl, rfl⟩

/-- Existing guest row used to instantiate the C8 theorem. -/
def c8Guest : NoteUser :=
  { user_id := "g", username := "Ann", role := .guest, can_edit := true,
    permission_status := .granted, permission_requested_at := some 3, joined_at := 1 }

/-- Session used to instantiate the C8 theorem. -/
def c8State : NoteState := { is_locked := false, locked_by := none, users := [c8Guest] }

/-- Witness for C8: a first join inserts a guest row with the defaults, and
a rejoin of a concrete existing guest rewrites name, role and join time
without duplicating the row. -/
theorem C8_joinNote_upsert_witness :
    joinNote { is_locked := false, locked_by := none, users := [] } 5 "g" "Ann" .guest =
      .ok ({ is_locked := false, locked_by := none,
             users := [] ++ [joinFresh 5 "g" "Ann" .guest] },
           joinFresh 5 "g" "Ann" .guest) ∧
    joinNote c8State 7 "g" "Bea" .host =
      .ok ({ c8State with users := updateUser c8State.users "g" (joinUpd 7 "Bea" .host) },
           joinUpd 7 "Bea" .host c8Guest) :=
  ⟨((C8_joinNote_upsert { is_locked := false, locked_by := none, users := [] }
      5 "g" "Ann" .guest (by decide)).1 rfl).1,
   ((C8_joinNote_upsert c8State 7 "g" "Bea" .host (by decide)).2 c8Guest (by decide)).1⟩

lemma upd_mem_updateUser (users : List NoteUser) (uid : String)
    (f : NoteUser → NoteUser) (u : NoteUser) (hu : u ∈ users)
    (heq : u.user_id = uid) : f u ∈ updateUser users uid f := by
  have h : (fun v : NoteUser => if v.user_id == uid then f v else v) u = f u := by
    simp [heq]
  exact h ▸ List.mem_map_of_mem _ hu

/-- Session in which a participant joined as a guest and then rejoined as
the host: the rejoin updates only name, role and join time, so the role
flips to host while the edit flag stays false. -/
def c1Flip : NoteState :=
  match joinNote { is_locked := false, locked_by := none, users := [] }
      0 "g" "Alice" .guest with
  | .ok (st1, _) =>
    match joinNote st1 1 "g" "Alice" .host with
    | .ok (st2, _) => st2
    | .error _ => st1
  | .error _ => { is_locked := false, locked_by := none, users := [] }

/-- Counterexample to C1: two reachable states violate the claimed host
invariant.  After `createNote` the host row's permission status is the
schema default `none`, not `granted` (the insert omits the column); and
after a guest joins and then rejoins with the host role, the role-host row
has its edit flag still false, because the rejoin update touches only name,
role and join time. -/
theorem C1_counterexample :
    (∃ u ∈ (createNote 0 "h").users,
       u.role = .host ∧ u.can_edit = true ∧ u.permission_status ≠ .granted) ∧
    (∃ u ∈ c1Flip.users, u.role = .host ∧ u.can_edit = false) := by
  decide

/-- C1 amended: none of the five state operations ever rewrites the edit
flag or the permission status of a host row whose status is `granted` or
`none` — a successor state always contains a row with the same participant
id, the same edit flag and the same status.  Freshly created hosts do get
an edit flag of true, but `createNote` leaves the host's status at the
schema default `none` rather than `granted`, and `joinNote` can flip an
existing guest row's role to host without touching either field, so the
claimed invariant itself fails (see the counterexample). -/
theorem C1_amended_host_fields (st : NoteState)
    (hnodup : (st.users.map NoteUser.user_id).Nodup)
    (u : NoteUser) (hu : u ∈ st.users) (hrole : u.role = .host)
    (hstat : u.permission_status = .granted ∨ u.permission_status = .noReq) :
    (∀ now uid uname role st2 r, joinNote st now uid uname role = .ok (st2, r) →
       ∃ v ∈ st2.users, v.user_id = u.user_id ∧ v.can_edit = u.can_edit ∧
         v.permission_status = u.permission_status) ∧
    (∀ now uid st2 r, requestEditPermission st now uid = .ok (st2, r) →
       ∃ v ∈ st2.users, v.user_id = u.user_id ∧ v.can_edit = u.can_edit ∧
         v.permission_status = u.permission_status) ∧
    (∀ tuid approved huid st2 r,
       respondToEditRequest st tuid approved huid = .ok (st2, r) →
       ∃ v ∈ st2.users, v.user_id = u.user_id ∧ v.can_edit = u.can_edit ∧
         v.permission_status = u.permission_status) ∧
    (∀ tuid ce rid st2 r, updateUserEditPermission st tuid ce rid = .ok (st2, r) →
       ∃ v ∈ st2.users, v.user_id = u.user_id ∧ v.can_edit = u.can_edit ∧
         v.permission_status = u.permission_status) ∧
    (∀ now dbFail, ∃ v ∈ (cleanupExpiredRequests st now dbFail).1.users,
       v.user_id = u.user_id ∧ v.can_edit = u.can_edit ∧
         v.permission_status = u.permission_status) ∧
    (∀ now hid, ∀ v ∈ (createNote now hid).users,
       v.role = .host ∧ v.can_edit = true ∧ v.permission_status = .noReq) := by
  refine ⟨?_, ?_, ?_, ?_, ?_, ?_⟩
  · intro now uid uname role st2 r h
    rcases joinNote_ok_users h with hup | ⟨fresh, happ⟩
    · rw [hup]
      by_cases hx : u.user_id = uid
      · exact ⟨joinUpd now uname role u,
               upd_mem_updateUser st.users uid _ u hu hx, rfl, rfl, rfl⟩
      · exact ⟨u, self_mem_updateUser_of_ne st.users uid _ u hu hx, rfl, rfl, rfl⟩
    · rw [happ]
      exact ⟨u, List.mem_append_left _ hu, rfl, rfl, rfl⟩
  · intro now uid st2 r h
    obtain ⟨w, hw, hwrole, hst2⟩ := requestEditPermission_ok_inv h
    have hx : u.user_id ≠ uid := by
      intro hx
      rw [← hx] at hw
      exact hwrole (findUser_eq_of_mem_nodup st.users hnodup u hu w hw ▸ hrole)
    rw [hst2]
    exact ⟨u, self_mem_updateUser_of_ne st.users uid _ u hu hx, rfl, rfl, rfl⟩
  · intro tuid approved huid st2 r h
    obtain ⟨w, hw, hwstat, husers⟩ := respondToEditRequest_ok_inv h
    have hx : u.user_id ≠ tuid := by
      intro hx
      rw [← hx] at hw
      have hwu := findUser_eq_of_mem_nodup st.users hnodup u hu w hw
      rcases hstat with hs | hs <;>
        { rw [hwu, hs] at hwstat; exact PermissionStatus.noConfusion hwstat }
    rw [husers]
    exact ⟨u, self_mem_updateUser_of_ne st.users tuid _ u hu hx, rfl, rfl, rfl⟩
  · intro tuid ce rid st2 r h
    obtain ⟨_, t, ht, htrole, _, hst2⟩ := updateUserEditPermission_ok_inv h
    have hx : u.user_id ≠ tuid := by
      intro hx
      rw [← hx] at ht
      exact htrole (findUser_eq_of_mem_nodup st.users hnodup u hu t ht ▸ hrole)
    rw [hst2]
    exact ⟨u, self_mem_updateUser_of_ne st.users tuid _ u hu hx, rfl, rfl, rfl⟩
  · intro now dbFail
    cases dbFail with
    | true => exact ⟨u, hu, rfl, rfl, rfl⟩
    | false =>
      refine ⟨u, ?_, rfl, rfl, rfl⟩
      have h : expireUpd now u = u := expireUpd_id_of_status now u hstat
      have hm : expireUpd now u ∈ (cleanupExpiredRequests st now false).1.users := by
        simpa [cleanupExpiredRequests] using List.mem_map_of_mem (expireUpd now) hu
      rwa [h] at hm
  · intro now hid v hv
    simp only [createNote, List.mem_singleton] at hv
    rw [hv]
    exact ⟨rfl, rfl, rfl⟩

/-- Witness for C1 amended: the cleanup pass over a concrete session with a
granted host keeps the host's edit flag and status. -/
theorem C1_amended_host_fields_witness :
    ∃ v ∈ (cleanupExpiredRequests c4State 0 false).1.users,
      v.user_id = c4Host.user_id ∧ v.can_edit = c4Host.can_edit ∧
        v.permission_status = c4Host.permission_status :=
  (C1_amended_host_fields c4State (by decide) c4Host (by decide) rfl
      (Or.inl rfl)).2.2.2.2.1 0 false

/-- Initial client synchronisation state of `useRealtimeNote`: the attempt
counter ref starts at 0, no polling timer is installed, not connected. -/
def initialSyncState : SyncState :=
  { reconnectAttempts := 0, pollingActive := false, isConnected := false }

/-- Counterexample to C9: after exactly 3 consecutive failed subscription
attempts the handler has only incremented the attempt counter to the bound
and has not started polling — the `startPolling` branch is reached only
when a failure arrives with the counter already at the bound, i.e. on the
4th consecutive failure. -/
theorem C9_counterexample :
    (List.foldl onStatus initialSyncState
       [.channelError, .channelError, .channelError]).pollingActive = false ∧
    (List.foldl onStatus initialSyncState
       [.channelError, .channelError, .channelError]).reconnectAttempts =
      MAX_RECONNECT_ATTEMPTS := by
  decide

/-- C9 amended: from any client state, 4 consecutive failed subscription
attempts leave the agent in polling mode; the polling interval is fixed at
3000 milliseconds; once polling, for any later authoritative change time
there is a poll tick within one interval of it; and a poll tick with no
local change in flight adopts the authoritative content. -/
theorem C9_amended_polling_fallback :
    (∀ s : SyncState,
       (List.foldl onStatus s
          [.channelError, .channelError, .channelError,
           .channelError]).pollingActive = true) ∧
    POLLING_INTERVAL = 3000 ∧
    (∀ pollStart T : Nat, pollStart ≤ T →
       ∃ k : Nat, T ≤ pollStart + POLLING_INTERVAL * (k + 1) ∧
         pollStart + POLLING_INTERVAL * (k + 1) ≤ T + POLLING_INTERVAL) ∧
    (∀ localC serverC : Option TiptapContent, applyFetch localC serverC false = serverC) := by
  have hmono : ∀ s2 : SyncState, s2.pollingActive = true →
      (onStatus s2 .channelError).pollingActive = true := by
    intro s2 h2
    simp only [onStatus]
    split
    · simpa using h2
    · rfl
  refine ⟨?_, rfl, ?_, fun localC serverC => rfl⟩
  · intro s
    obtain ⟨a, p, c⟩ := s
    by_cases h : a < 3
    · interval_cases a <;>
        simp [onStatus, MAX_RECONNECT_ATTEMPTS]
    · have h1 : (onStatus ⟨a, p, c⟩ .channelError).pollingActive = true := by
        simp [onStatus, MAX_RECONNECT_ATTEMPTS, h]
      exact hmono _ (hmono _ (hmono _ h1))
  · intro pollStart T hle
    refine ⟨(T - pollStart) / 3000, ?_, ?_⟩ <;>
      · have hdm := Nat.div_add_mod (T - pollStart) 3000
        have hm : (T - pollStart) % 3000 < 3000 := Nat.mod_lt _ (by norm_num)
        simp only [POLLING_INTERVAL]
        omega

/-- Witness for C9 amended: with polling started at time 0 and a server
change at time 10, some poll tick lands in the window (10, 3010]. -/
theorem C9_amended_polling_fallback_witness :
    ∃ k : Nat, 10 ≤ 0 + POLLING_INTERVAL * (k + 1) ∧
      0 + POLLING_INTERVAL * (k + 1) ≤ 10 + POLLING_INTERVAL :=
  C9_amended_polling_fallback.2.2.1 0 10 (by decide)

end LiveNote
